import Mathlib

/-!
# Verification of `pycketcasts/entities/episode.py`

A shallow embedding of the `Episode` entity of the pycketcasts client.
Python JSON values become the inductive `JVal`; the payload dict becomes an
association list; Python exceptions become the `Except PyExc` monad; external
HTTP effects are recorded in an explicit trace (`List Effect`).

Conventions of the embedding, checked against the source:
* `dict.get(k)` returns `None` for a missing key; we map both a missing key
  and the Python value `None` to `JVal.null`.
* Every exception raised anywhere in this file's modelled code is raised
  *before* any external effect of the same call (this holds in the source:
  each `raise`, failing attribute access or failing comparison textually
  precedes the first HTTP call of its method), so `Except.error` carries no
  effect trace: an error result means no effect was performed.
* The HTTP transport, the `Podcast` class internals and the API client
  internals are external collaborators; their observable outcomes are fields
  of the `PocketCast` structure.
-/

/-- A Python value as it occurs in the episode's JSON payload and in the
request bodies the methods build: `None`, `bool`, `int`, `str`, `list`,
`dict`, and (because `play_next`/`play_last` place the result of
`published_date` into a dict) a `datetime.datetime` object, represented by
its six components. -/
inductive JVal where
  | null : JVal
  | bool (b : Bool) : JVal
  | int (n : Int) : JVal
  | str (s : String) : JVal
  | arr (xs : List JVal) : JVal
  | obj (fs : List (String × JVal)) : JVal
  | dt (year month day hour minute second : Nat) : JVal

/-- Python truthiness (`if x:`) for the values of `JVal`.  A `datetime`
object is truthy. -/
def JVal.truthy : JVal → Bool
  | .null => false
  | .bool b => b
  | .int n => n != 0
  | .str s => s ≠ ""
  | .arr xs => !xs.isEmpty
  | .obj fs => !fs.isEmpty
  | .dt _ _ _ _ _ _ => true

/-- A Python dict with string keys, as an association list (first binding
wins, as in a dict that is read but never updated). -/
abbrev JObj := List (String × JVal)

/-- Python `d.get(k, default)`: the stored value when the key is present
(even if that value is `None`), the default otherwise. -/
def JObj.getD (d : JObj) (k : String) (default : JVal) : JVal :=
  match d.find? (fun p => p.1 == k) with
  | some p => p.2
  | none => default

/-- Python `d.get(k)`: `None` when the key is missing. -/
def JObj.get (d : JObj) (k : String) : JVal :=
  JObj.getD d k .null

/-- The Python exceptions the modelled code can raise. -/
inductive PyExc where
  | attributeError (attr : String) : PyExc
  | typeError (msg : String) : PyExc
  | exception (msg : String) : PyExc
  | recursionError : PyExc
  deriving Repr, DecidableEq

/-- Python `v > n` for an `int` right operand `n`: defined for `int` and
`bool` left operands (a Python `bool` is an `int`), a `TypeError` otherwise
(in particular for `None`, as in `None > 0`). -/
def pyGtInt (v : JVal) (n : Int) : Except PyExc Bool :=
  match v with
  | .int m => .ok (m > n)
  | .bool b => .ok ((if b then (1 : Int) else 0) > n)
  | _ => .error (.typeError "unorderable with int")

/-- Python `n > v` for an `int` left operand (used by
`progress > self.duration`). -/
def pyIntGt (n : Int) (v : JVal) : Except PyExc Bool :=
  match v with
  | .int m => .ok (n > m)
  | .bool b => .ok (n > (if b then (1 : Int) else 0))
  | _ => .error (.typeError "unorderable with int")

/-- Python `str(v)`, as used by the f-string in `show_notes`.  Faithful for
`str`, `None`, `bool` and `int`; for the container and datetime cases, which
never occur as an episode `uuid`, a simplified rendering is used. -/
def pyStr : JVal → String
  | .null => "None"
  | .bool b => if b then "True" else "False"
  | .int n => toString n
  | .str s => s
  | .arr _ => "[...]"
  | .obj _ => "{...}"
  | .dt _ _ _ _ _ _ => "datetime"

/-- ASCII lowercasing of a string, character by character (the case folding
CPython's `re.IGNORECASE` applies to the ASCII letters of the format). -/
def asciiLower (s : String) : String := ⟨s.data.map Char.toLower⟩

/-- Modelled (external stdlib): `datetime.strptime(v, 'YYYY-MM-DDTHH:mm:ssZ')`
with the directive-free format string used by `published_date`.  CPython
compiles a `%`-free format to a regex of escaped literals matched with
`re.IGNORECASE` and requires the whole input to be consumed, so the parse
succeeds exactly when the input string equals the format literal up to
(ASCII) case, yielding the all-defaults `datetime(1900, 1, 1, 0, 0, 0)`; any
other string raises `ValueError`, and a non-`str` argument raises
`TypeError`.  Both are represented here as errors, since `published_date`
catches every exception. -/
def strptimeLiteralFmt (v : JVal) : Except PyExc JVal :=
  match v with
  | .str s =>
      if asciiLower s = "yyyy-mm-ddthh:mm:ssz" then
        .ok (.dt 1900 1 1 0 0 0)
      else
        .error (.exception "ValueError")
  | _ => .error (.typeError "strptime() argument 1 must be str")

/-- Does the `published` field hold the one string `strptime` accepts under
the source's directive-free format? -/
def isFmtLiteral : JVal → Bool
  | .str s => asciiLower s = "yyyy-mm-ddthh:mm:ssz"
  | _ => false

/-- An external effect performed by a method of `Episode`: an HTTP POST of a
body to a URL (via the API's `_post` or `_post_json`), an HTTP GET (via
`_get_json`), a `print`, or a parent-podcast resolution through the API
client's `get_podcast_by_id` (whose own internals are external). -/
inductive Effect where
  | post (url : String) (body : JVal) : Effect
  | getJson (url : String) : Effect
  | printed (line : String) : Effect
  | resolve (podcastId : JVal) : Effect

/-- Is the effect an HTTP POST? -/
def Effect.isPost : Effect → Bool
  | .post _ _ => true
  | _ => false

/-- The parent `Podcast` entity.  Its internals are excluded from the spec's
scope; the only member the episode code uses is its `id` accessor. -/
structure Podcast where
  id : JVal

/-- The API client object, as the episode code observes it.  `_api_base` is
its base URL; the remaining fields are the observable outcomes of its
external calls: `get_podcast_by_id` yields the resolved parent `Podcast` (a
Python object, hence truthy), `_post` yields the truthiness of the POST
response, `_post_json` yields the decoded JSON dict of a POST or `none` for
a falsy response, and `_get_json` yields the decoded JSON dict of a GET. -/
structure PocketCast where
  _api_base : String
  get_podcast_by_id : JVal → Podcast
  _post : String → JVal → Bool
  _post_json : String → JVal → Option JObj
  _get_json : String → JObj

/-- Modelled from the spec: the module-level HTTP-endpoint-composition
helpers `_get_endpoint` and `_make_url` live in the API module, which is
outside the extracted source; the spec calls them a "thin
HTTP-endpoint-composition layer" that composes a fixed endpoint with the API
base.  We model them as an arbitrary pair of pure functions, so every
theorem below holds for any such layer. -/
structure UrlLayer where
  get_endpoint : String → String
  make_url : String → String → String

/-- The `Episode` entity: the wrapped JSON payload `_data`, the parent
reference `_podcast` (`none` models Python `None`), and the API client
`_api`. -/
structure Episode where
  _data : JObj
  _podcast : Option Podcast
  _api : PocketCast

/-- `Episode.podcast_id`: the payload's `podcastUuid` when truthy, otherwise
`self.podcast.id`.  When `_podcast` is set the property returns it and no
state changes; when `_podcast` is also falsy, `self.podcast` re-enters
`podcast_id` with unchanged state, and CPython aborts the unbounded
recursion with `RecursionError`. -/
def Episode.podcast_id (e : Episode) : Except PyExc JVal :=
  let u := JObj.get e._data "podcastUuid"
  if u.truthy then .ok u
  else
    match e._podcast with
    | some p => .ok p.id
    | none => .error .recursionError

/-- The `Episode.podcast` property: returns the cached `_podcast` when
truthy, otherwise resolves it through `self._api.get_podcast_by_id`, caches
and returns it.  The result is the updated episode, the effect trace, and
the returned podcast. -/
def Episode.podcast (e : Episode) : Except PyExc (Episode × List Effect × Podcast) :=
  match e._podcast with
  | some p => .ok (e, [], p)
  | none =>
      match e.podcast_id with
      | .error ex => .error ex
      | .ok pid =>
          let p := e._api.get_podcast_by_id pid
          .ok ({ e with _podcast := some p }, [.resolve pid], p)

/-- `Episode.__init__`: stores the payload and the supplied parent; when the
supplied parent is falsy it immediately resolves one via
`api.get_podcast_by_id(podcast_id=self.podcast_id)`.  At that point
`self._api` has not yet been assigned, so when the payload's `podcastUuid`
is falsy the nested `self.podcast` access raises
`AttributeError("_api")`. -/
def Episode.init (data : JObj) (podcast : Option Podcast) (api : PocketCast) :
    Except PyExc (Episode × List Effect) :=
  match podcast with
  | some p => .ok ({ _data := data, _podcast := some p, _api := api }, [])
  | none =>
      let u := JObj.get data "podcastUuid"
      if u.truthy then
        .ok ({ _data := data, _podcast := some (api.get_podcast_by_id u), _api := api },
             [.resolve u])
      else
        .error (.attributeError "_api")

/-- `Episode.title`: `self._data.get('title')`. -/
def Episode.title (e : Episode) : JVal := JObj.get e._data "title"

/-- `Episode.id`: `self._data.get('uuid')`. -/
def Episode.id (e : Episode) : JVal := JObj.get e._data "uuid"

/-- `Episode.duration`: `self._data.get('duration')`. -/
def Episode.duration (e : Episode) : JVal := JObj.get e._data "duration"

/-- `Episode.published_date`: `strptime` of the `published` field under the
directive-free format, with every exception caught and turned into `None`. -/
def Episode.published_date (e : Episode) : Option JVal :=
  match strptimeLiteralFmt (JObj.get e._data "published") with
  | .ok d => some d
  | .error _ => none

/-- `Episode.url`: `self._data.get('url')`. -/
def Episode.url (e : Episode) : JVal := JObj.get e._data "url"

/-- `Episode.playing`: `True if self._data.get('playing_status') > 0 else
False`; the comparison raises `TypeError` when the field is missing or not a
number. -/
def Episode.playing (e : Episode) : Except PyExc Bool :=
  pyGtInt (JObj.get e._data "playing_status") 0

/-- `Episode.size`: `self._data.get('size')`. -/
def Episode.size (e : Episode) : JVal := JObj.get e._data "size"

/-- `Episode.file_type`: `self._data.get('fileType')`. -/
def Episode.file_type (e : Episode) : JVal := JObj.get e._data "fileType"

/-- `Episode.type`: `self._data.get('episodeType')`. -/
def Episode.type (e : Episode) : JVal := JObj.get e._data "episodeType"

/-- `Episode.season`: `self._data.get('episodeSeason')`. -/
def Episode.season (e : Episode) : JVal := JObj.get e._data "episodeSeason"

/-- `Episode.number`: `self._data.get('episodeNumber')`. -/
def Episode.number (e : Episode) : JVal := JObj.get e._data "episodeNumber"

/-- `Episode.current_position`: `self._data.get('playedUpTo')`. -/
def Episode.current_position (e : Episode) : JVal := JObj.get e._data "playedUpTo"

/-- `Episode.deleted`: `self._data.get('isDeleted')`. -/
def Episode.deleted (e : Episode) : JVal := JObj.get e._data "isDeleted"

/-- `Episode.starred`: `self._data.get('starred')`. -/
def Episode.starred (e : Episode) : JVal := JObj.get e._data "starred"

/-- `Episode.podcast_title`: `self._data.get('podcastTitle')`. -/
def Episode.podcast_title (e : Episode) : JVal := JObj.get e._data "podcastTitle"

/-- The Python value `play_next`/`play_last` place under the `published`
key: the `datetime` from `published_date`, or `None`. -/
def encodePublished : Option JVal → JVal
  | some d => d
  | none => .null

/-- `Episode.share_link`: composes the `share` URL, POSTs
`{'episode': self.id, 'podcast': self.podcast_id}` via `_post_json`, and
returns `data.get('url')` when the response dict is truthy, `None`
otherwise. -/
def Episode.share_link (L : UrlLayer) (e : Episode) :
    Except PyExc (Episode × List Effect × JVal) :=
  let url := L.make_url e._api._api_base (L.get_endpoint "share")
  match e.podcast_id with
  | .error ex => .error ex
  | .ok pid =>
      let body := JVal.obj [("episode", e.id), ("podcast", pid)]
      match e._api._post_json url body with
      | some d =>
          if !d.isEmpty then .ok (e, [.post url body], JObj.get d "url")
          else .ok (e, [.post url body], .null)
      | none => .ok (e, [.post url body], .null)

/-- `Episode.show_notes`: builds the hard-coded show-notes URL from
`self.id`, prints it, GETs it through `_api._get_json` (the `include_token`
flag is transport detail of the external client), and returns
`data.get('show_notes', "")`. -/
def Episode.show_notes (e : Episode) : Except PyExc (Episode × List Effect × JVal) :=
  let url := "https://podcast-api.pocketcasts.com/episode/show_notes/" ++ pyStr e.id
  let d := e._api._get_json url
  .ok (e, [.printed url, .getJson url], JObj.getD d "show_notes" (.str ""))

/-- `Episode.update_progress`: raises when `progress > self.duration`
(including the `TypeError` Python raises when `duration` is not a number);
otherwise POSTs `{'uuid', 'podcast', 'status': 2, 'position': progress}` to
the `play_status` URL and returns the truthiness of the response. -/
def Episode.update_progress (L : UrlLayer) (e : Episode) (progress : Int) :
    Except PyExc (Episode × List Effect × Bool) :=
  match pyIntGt progress e.duration with
  | .error ex => .error ex
  | .ok true => .error (.exception "Cannot update with progress longer than episode duration")
  | .ok false =>
      let url := L.make_url e._api._api_base (L.get_endpoint "play_status")
      match e.podcast_id with
      | .error ex => .error ex
      | .ok pid =>
          let body := JVal.obj [("uuid", e.id), ("podcast", pid),
                                ("status", .int 2), ("position", .int progress)]
          .ok (e, [.post url body], e._api._post url body)

/-- `Episode.mark_played`: POSTs `{'uuid', 'podcast', 'status': 3}` to the
`play_status` URL and returns the truthiness of the response. -/
def Episode.mark_played (L : UrlLayer) (e : Episode) :
    Except PyExc (Episode × List Effect × Bool) :=
  let url := L.make_url e._api._api_base (L.get_endpoint "play_status")
  match e.podcast_id with
  | .error ex => .error ex
  | .ok pid =>
      let body := JVal.obj [("uuid", e.id), ("podcast", pid), ("status", .int 3)]
      .ok (e, [.post url body], e._api._post url body)

/-- `Episode.mark_unplayed`: POSTs `{'uuid', 'podcast', 'status': 1,
'position': 0}` to the `play_status` URL. -/
def Episode.mark_unplayed (L : UrlLayer) (e : Episode) :
    Except PyExc (Episode × List Effect × Bool) :=
  let url := L.make_url e._api._api_base (L.get_endpoint "play_status")
  match e.podcast_id with
  | .error ex => .error ex
  | .ok pid =>
      let body := JVal.obj [("uuid", e.id), ("podcast", pid),
                            ("status", .int 1), ("position", .int 0)]
      .ok (e, [.post url body], e._api._post url body)

/-- `Episode.add_star`: POSTs `{'uuid', 'podcast', 'star': True}` to the
`episode_star` URL (the source passes the dict through the `json=` keyword
rather than `data=`; both are a single `_post` call). -/
def Episode.add_star (L : UrlLayer) (e : Episode) :
    Except PyExc (Episode × List Effect × Bool) :=
  let url := L.make_url e._api._api_base (L.get_endpoint "episode_star")
  match e.podcast_id with
  | .error ex => .error ex
  | .ok pid =>
      let body := JVal.obj [("uuid", e.id), ("podcast", pid), ("star", .bool true)]
      .ok (e, [.post url body], e._api._post url body)

/-- `Episode.remove_star`: POSTs `{'uuid', 'podcast', 'star': False}` to the
`episode_star` URL (through the `json=` keyword, as for `add_star`). -/
def Episode.remove_star (L : UrlLayer) (e : Episode) :
    Except PyExc (Episode × List Effect × Bool) :=
  let url := L.make_url e._api._api_base (L.get_endpoint "episode_star")
  match e.podcast_id with
  | .error ex => .error ex
  | .ok pid =>
      let body := JVal.obj [("uuid", e.id), ("podcast", pid), ("star", .bool false)]
      .ok (e, [.post url body], e._api._post url body)

/-- `Episode.archive`: POSTs `{'episodes': [{'uuid', 'podcast'}],
'archive': True}` to the `episode_archive` URL. -/
def Episode.archive (L : UrlLayer) (e : Episode) :
    Except PyExc (Episode × List Effect × Bool) :=
  let url := L.make_url e._api._api_base (L.get_endpoint "episode_archive")
  match e.podcast_id with
  | .error ex => .error ex
  | .ok pid =>
      let body := JVal.obj [("episodes", .arr [.obj [("uuid", e.id), ("podcast", pid)]]),
                            ("archive", .bool true)]
      .ok (e, [.post url body], e._api._post url body)

/-- `Episode.unarchive`: POSTs `{'episodes': [{'uuid', 'podcast'}],
'archive': False}` to the `episode_archive` URL. -/
def Episode.unarchive (L : UrlLayer) (e : Episode) :
    Except PyExc (Episode × List Effect × Bool) :=
  let url := L.make_url e._api._api_base (L.get_endpoint "episode_archive")
  match e.podcast_id with
  | .error ex => .error ex
  | .ok pid =>
      let body := JVal.obj [("episodes", .arr [.obj [("uuid", e.id), ("podcast", pid)]]),
                            ("archive", .bool false)]
      .ok (e, [.post url body], e._api._post url body)

/-- `Episode.play_next`: POSTs `{'version': 2, 'episode': {'uuid', 'title',
'url', 'podcast', 'published'}}` to the `play_next` URL. -/
def Episode.play_next (L : UrlLayer) (e : Episode) :
    Except PyExc (Episode × List Effect × Bool) :=
  let url := L.make_url e._api._api_base (L.get_endpoint "play_next")
  match e.podcast_id with
  | .error ex => .error ex
  | .ok pid =>
      let body := JVal.obj [("version", .int 2),
                            ("episode", .obj [("uuid", e.id), ("title", e.title),
                                              ("url", e.url), ("podcast", pid),
                                              ("published", encodePublished e.published_date)])]
      .ok (e, [.post url body], e._api._post url body)

/-- `Episode.play_last`: POSTs the same queue payload as `play_next` to the
`play_last` URL. -/
def Episode.play_last (L : UrlLayer) (e : Episode) :
    Except PyExc (Episode × List Effect × Bool) :=
  let url := L.make_url e._api._api_base (L.get_endpoint "play_last")
  match e.podcast_id with
  | .error ex => .error ex
  | .ok pid =>
      let body := JVal.obj [("version", .int 2),
                            ("episode", .obj [("uuid", e.id), ("title", e.title),
                                              ("url", e.url), ("podcast", pid),
                                              ("published", encodePublished e.published_date)])]
      .ok (e, [.post url body], e._api._post url body)

/-!
## Concrete fixtures

A concrete URL layer, API client and episodes, used by the witness and
counterexample theorems below. -/

/-- A concrete endpoint-composition layer: endpoint `/name`, URL
`base ++ endpoint`. -/
def L0 : UrlLayer :=
  { get_endpoint := fun n => "/" ++ n
  , make_url := fun b e => b ++ e }

/-- A concrete parent podcast. -/
def pod0 : Podcast := { id := .str "pod-1" }

/-- A concrete API client whose POSTs succeed. -/
def api0 : PocketCast :=
  { _api_base := "https://api.pocketcasts.com"
  , get_podcast_by_id := fun pid => { id := pid }
  , _post := fun _ _ => true
  , _post_json := fun _ _ => some [("url", .str "https://pca.st/episode/abc")]
  , _get_json := fun _ => [("show_notes", .str "some notes")] }

/-- A concrete episode payload with every field the claims exercise. -/
def data0 : JObj :=
  [("uuid", .str "ep-1"), ("title", .str "An Episode"),
   ("url", .str "https://feed.example/ep1.mp3"), ("duration", .int 100),
   ("podcastUuid", .str "pod-1"), ("playing_status", .int 5),
   ("published", .str "2021-01-01T00:00:00Z")]

/-- A constructed episode over `data0`. -/
def ep0 : Episode := { _data := data0, _podcast := some pod0, _api := api0 }

/-- A payload with no `podcastUuid` (and no `published`). -/
def dataU : JObj := [("uuid", .str "ep-2"), ("duration", .int 100)]

/-- A constructed episode over `dataU`, with the parent supplied. -/
def epU : Episode := { _data := dataU, _podcast := some pod0, _api := api0 }

/-- An episode over `data0` whose parent reference is unset, exercising the
`podcast` property's resolution branch. -/
def epN : Episode := { _data := data0, _podcast := none, _api := api0 }

/-- A payload whose `published` field is the one string the directive-free
`strptime` format accepts. -/
def dataPubLit : JObj :=
  [("uuid", .str "ep-3"), ("published", .str "YYYY-MM-DDTHH:mm:ssZ")]

/-- A constructed episode over `dataPubLit`. -/
def epPubLit : Episode := { _data := dataPubLit, _podcast := some pod0, _api := api0 }

/-!
## Evaluation lemmas

One equation per method, under the hypothesis that `podcast_id` resolves;
shared by the claim theorems below. -/

/-- Evaluation of `mark_played`. -/
theorem mark_played_eval (L : UrlLayer) (e : Episode) (pid : JVal)
    (hpid : e.podcast_id = .ok pid) :
    e.mark_played L = .ok (e,
      [Effect.post (L.make_url e._api._api_base (L.get_endpoint "play_status"))
         (JVal.obj [("uuid", e.id), ("podcast", pid), ("status", .int 3)])],
      e._api._post (L.make_url e._api._api_base (L.get_endpoint "play_status"))
         (JVal.obj [("uuid", e.id), ("podcast", pid), ("status", .int 3)])) := by
  simp [Episode.mark_played, hpid]

/-- Evaluation of `mark_unplayed`. -/
theorem mark_unplayed_eval (L : UrlLayer) (e : Episode) (pid : JVal)
    (hpid : e.podcast_id = .ok pid) :
    e.mark_unplayed L = .ok (e,
      [Effect.post (L.make_url e._api._api_base (L.get_endpoint "play_status"))
         (JVal.obj [("uuid", e.id), ("podcast", pid), ("status", .int 1), ("position", .int 0)])],
      e._api._post (L.make_url e._api._api_base (L.get_endpoint "play_status"))
         (JVal.obj [("uuid", e.id), ("podcast", pid), ("status", .int 1), ("position", .int 0)])) := by
  simp [Episode.mark_unplayed, hpid]

/-- Evaluation of `update_progress` when the guard evaluates to `False`. -/
theorem update_progress_eval (L : UrlLayer) (e : Episode) (pid : JVal) (progress : Int)
    (hpid : e.podcast_id = .ok pid)
    (hgt : pyIntGt progress e.duration = .ok false) :
    e.update_progress L progress = .ok (e,
      [Effect.post (L.make_url e._api._api_base (L.get_endpoint "play_status"))
         (JVal.obj [("uuid", e.id), ("podcast", pid), ("status", .int 2),
                    ("position", .int progress)])],
      e._api._post (L.make_url e._api._api_base (L.get_endpoint "play_status"))
         (JVal.obj [("uuid", e.id), ("podcast", pid), ("status", .int 2),
                    ("position", .int progress)])) := by
  simp [Episode.update_progress, hgt, hpid]

/-- Evaluation of `add_star`. -/
theorem add_star_eval (L : UrlLayer) (e : Episode) (pid : JVal)
    (hpid : e.podcast_id = .ok pid) :
    e.add_star L = .ok (e,
      [Effect.post (L.make_url e._api._api_base (L.get_endpoint "episode_star"))
         (JVal.obj [("uuid", e.id), ("podcast", pid), ("star", .bool true)])],
      e._api._post (L.make_url e._api._api_base (L.get_endpoint "episode_star"))
         (JVal.obj [("uuid", e.id), ("podcast", pid), ("star", .bool true)])) := by
  simp [Episode.add_star, hpid]

/-- Evaluation of `remove_star`. -/
theorem remove_star_eval (L : UrlLayer) (e : Episode) (pid : JVal)
    (hpid : e.podcast_id = .ok pid) :
    e.remove_star L = .ok (e,
      [Effect.post (L.make_url e._api._api_base (L.get_endpoint "episode_star"))
         (JVal.obj [("uuid", e.id), ("podcast", pid), ("star", .bool false)])],
      e._api._post (L.make_url e._api._api_base (L.get_endpoint "episode_star"))
         (JVal.obj [("uuid", e.id), ("podcast", pid), ("star", .bool false)])) := by
  simp [Episode.remove_star, hpid]

/-- Evaluation of `archive`. -/
theorem archive_eval (L : UrlLayer) (e : Episode) (pid : JVal)
    (hpid : e.podcast_id = .ok pid) :
    e.archive L = .ok (e,
      [Effect.post (L.make_url e._api._api_base (L.get_endpoint "episode_archive"))
         (JVal.obj [("episodes", .arr [.obj [("uuid", e.id), ("podcast", pid)]]),
                    ("archive", .bool true)])],
      e._api._post (L.make_url e._api._api_base (L.get_endpoint "episode_archive"))
         (JVal.obj [("episodes", .arr [.obj [("uuid", e.id), ("podcast", pid)]]),
                    ("archive", .bool true)])) := by
  simp [Episode.archive, hpid]

/-- Evaluation of `unarchive`. -/
theorem unarchive_eval (L : UrlLayer) (e : Episode) (pid : JVal)
    (hpid : e.podcast_id = .ok pid) :
    e.unarchive L = .ok (e,
      [Effect.post (L.make_url e._api._api_base (L.get_endpoint "episode_archive"))
         (JVal.obj [("episodes", .arr [.obj [("uuid", e.id), ("podcast", pid)]]),
                    ("archive", .bool false)])],
      e._api._post (L.make_url e._api._api_base (L.get_endpoint "episode_archive"))
         (JVal.obj [("episodes", .arr [.obj [("uuid", e.id), ("podcast", pid)]]),
                    ("archive", .bool false)])) := by
  simp [Episode.unarchive, hpid]

/-- Evaluation of `play_next`. -/
theorem play_next_eval (L : UrlLayer) (e : Episode) (pid : JVal)
    (hpid : e.podcast_id = .ok pid) :
    e.play_next L = .ok (e,
      [Effect.post (L.make_url e._api._api_base (L.get_endpoint "play_next"))
         (JVal.obj [("version", .int 2),
                    ("episode", .obj [("uuid", e.id), ("title", e.title), ("url", e.url),
                                      ("podcast", pid),
                                      ("published", encodePublished e.published_date)])])],
      e._api._post (L.make_url e._api._api_base (L.get_endpoint "play_next"))
         (JVal.obj [("version", .int 2),
                    ("episode", .obj [("uuid", e.id), ("title", e.title), ("url", e.url),
                                      ("podcast", pid),
                                      ("published", encodePublished e.published_date)])])) := by
  simp [Episode.play_next, hpid]

/-- Evaluation of `play_last`. -/
theorem play_last_eval (L : UrlLayer) (e : Episode) (pid : JVal)
    (hpid : e.podcast_id = .ok pid) :
    e.play_last L = .ok (e,
      [Effect.post (L.make_url e._api._api_base (L.get_endpoint "play_last"))
         (JVal.obj [("version", .int 2),
                    ("episode", .obj [("uuid", e.id), ("title", e.title), ("url", e.url),
                                      ("podcast", pid),
                                      ("published", encodePublished e.published_date)])])],
      e._api._post (L.make_url e._api._api_base (L.get_endpoint "play_last"))
         (JVal.obj [("version", .int 2),
                    ("episode", .obj [("uuid", e.id), ("title", e.title), ("url", e.url),
                                      ("podcast", pid),
                                      ("published", encodePublished e.published_date)])])) := by
  simp [Episode.play_last, hpid]

/-- `share_link` issues exactly one POST of the share body, whatever the
response. -/
theorem share_link_posts (L : UrlLayer) (e : Episode) (pid : JVal)
    (hpid : e.podcast_id = .ok pid) :
    ∃ v, e.share_link L = .ok (e,
      [Effect.post (L.make_url e._api._api_base (L.get_endpoint "share"))
         (JVal.obj [("episode", e.id), ("podcast", pid)])], v) := by
  unfold Episode.share_link
  rw [hpid]
  cases h : e._api._post_json (L.make_url e._api._api_base (L.get_endpoint "share"))
      (JVal.obj [("episode", e.id), ("podcast", pid)]) with
  | some d => cases hd : d.isEmpty <;> simp [h, hd]
  | none => simp [h]

/-- Evaluation of `show_notes`: one `print`, one GET. -/
theorem show_notes_eval (e : Episode) :
    e.show_notes = .ok (e,
      [Effect.printed ("https://podcast-api.pocketcasts.com/episode/show_notes/" ++ pyStr e.id),
       Effect.getJson ("https://podcast-api.pocketcasts.com/episode/show_notes/" ++ pyStr e.id)],
      JObj.getD (e._api._get_json
          ("https://podcast-api.pocketcasts.com/episode/show_notes/" ++ pyStr e.id))
        "show_notes" (.str "")) := rfl

/-!
## Claims
-/

/-- C1: for every `Episode`, `podcast_id` returns the payload's
`podcastUuid` field when that field is truthy, and otherwise the `id` of the
parent `Podcast` delivered by the resolving `podcast` property. -/
theorem podcast_id_payload_or_parent (e : Episode) :
    ((JObj.get e._data "podcastUuid").truthy = true →
        e.podcast_id = .ok (JObj.get e._data "podcastUuid")) ∧
    ((JObj.get e._data "podcastUuid").truthy = false →
        ∀ e' fx p, e.podcast = .ok (e', fx, p) → e.podcast_id = .ok p.id) := by
  constructor
  · intro h
    simp [Episode.podcast_id, h]
  · intro h e' fx p hp
    cases hpc : e._podcast with
    | some q =>
        simp [Episode.podcast, hpc] at hp
        simp [Episode.podcast_id, h, hpc, hp.2.2]
    | none =>
        simp [Episode.podcast, Episode.podcast_id, h, hpc] at hp

/-- Witness for C1: on `ep0` the payload's `podcastUuid` is truthy and is
returned; on `epU` the field is absent and the supplied parent's id is
returned. -/
theorem podcast_id_payload_or_parent_witness :
    ep0.podcast_id = .ok (.str "pod-1") ∧ epU.podcast_id = .ok (.str "pod-1") :=
  ⟨(podcast_id_payload_or_parent ep0).1 rfl,
   (podcast_id_payload_or_parent epU).2 rfl epU [] pod0 rfl⟩

/-- C10: constructing an `Episode` with a falsy parent and a payload whose
`podcastUuid` is not truthy raises `AttributeError`: the constructor's
parent resolution consults `podcast_id`, which falls back to the `podcast`
property and reads `self._api` before that attribute has been assigned. -/
theorem init_attribute_error (data : JObj) (api : PocketCast)
    (h : (JObj.get data "podcastUuid").truthy = false) :
    Episode.init data none api = .error (.attributeError "_api") := by
  simp [Episode.init, h]

/-- Witness for C10 at the `podcastUuid`-free payload `dataU`. -/
theorem init_attribute_error_witness :
    Episode.init dataU none api0 = .error (.attributeError "_api") :=
  init_attribute_error dataU api0 rfl

/-- C3 counterexample: `update_progress` is a mutating method that raises an
exception (rather than returning a boolean) when the progress exceeds the
episode's duration, refuting "it never raises an exception" at the concrete
episode `ep0` (duration 100) with progress 200. -/
theorem update_progress_raises_cx :
    ep0.update_progress L0 200 =
      .error (.exception "Cannot update with progress longer than episode duration") := rfl

/-- C5 counterexample: constructing an `Episode` over `data0` without a
parent performs the `get_podcast_by_id` resolution inside the constructor
itself (the `resolve` effect below), refuting "the constructor itself
performs no `get_podcast_by_id` call, and the resolution happens on first
access to the `podcast` property". -/
theorem init_resolves_eagerly_cx :
    Episode.init data0 none api0 =
      .ok ({ _data := data0, _podcast := some { id := .str "pod-1" }, _api := api0 },
           [Effect.resolve (.str "pod-1")]) := rfl

/-- C9 counterexample: on a payload whose `published` field is exactly the
directive-free format string `'YYYY-MM-DDTHH:mm:ssZ'`, CPython's `strptime`
succeeds (a `%`-free format matches its own literal) and `published_date`
returns the all-defaults `datetime(1900, 1, 1)` rather than `None`. -/
theorem published_date_literal_cx :
    epPubLit.published_date = some (.dt 1900 1 1 0 0 0) ∧
    JObj.get epPubLit._data "published" = .str "YYYY-MM-DDTHH:mm:ssZ" := ⟨rfl, rfl⟩

/-- C5 (amended): parent resolution is eager, not lazy.  When the parent is
supplied at construction, the constructor makes no resolution call and the
`podcast` property returns the supplied parent without any call; when no
parent is supplied (and the payload's `podcastUuid` is truthy), the
constructor itself performs the one `get_podcast_by_id` call, and the
`podcast` property afterwards returns the cached parent with no further
call. -/
theorem parent_resolution_eager (data : JObj) (api : PocketCast) (p : Podcast) :
    (Episode.init data (some p) api =
        .ok ({ _data := data, _podcast := some p, _api := api }, []) ∧
     Episode.podcast { _data := data, _podcast := some p, _api := api } =
        .ok ({ _data := data, _podcast := some p, _api := api }, [], p)) ∧
    ((JObj.get data "podcastUuid").truthy = true →
     Episode.init data none api =
        .ok ({ _data := data,
               _podcast := some (api.get_podcast_by_id (JObj.get data "podcastUuid")),
               _api := api },
             [Effect.resolve (JObj.get data "podcastUuid")]) ∧
     Episode.podcast ({ _data := data,
                        _podcast := some (api.get_podcast_by_id (JObj.get data "podcastUuid")),
                        _api := api }) =
        .ok ({ _data := data,
               _podcast := some (api.get_podcast_by_id (JObj.get data "podcastUuid")),
               _api := api }, [],
             api.get_podcast_by_id (JObj.get data "podcastUuid"))) := by
  refine ⟨⟨rfl, rfl⟩, fun h => ⟨?_, rfl⟩⟩
  simp [Episode.init, h]

/-- Witness for C5 (amended) at `data0`/`api0`/`pod0`. -/
theorem parent_resolution_eager_witness :
    Episode.init data0 (some pod0) api0 =
      .ok ({ _data := data0, _podcast := some pod0, _api := api0 }, []) ∧
    Episode.init data0 none api0 =
      .ok ({ _data := data0,
             _podcast := some (api0.get_podcast_by_id (JObj.get data0 "podcastUuid")),
             _api := api0 },
           [Effect.resolve (JObj.get data0 "podcastUuid")]) :=
  ⟨(parent_resolution_eager data0 api0 pod0).1.1,
   ((parent_resolution_eager data0 api0 pod0).2 rfl).1⟩

/-- C8: given an integer `duration` field and a resolvable `podcast_id`,
`update_progress(progress)` raises exactly when `progress` exceeds the
duration — performing no HTTP request and leaving the state unchanged (an
error result carries no effect trace) — and otherwise issues exactly one
POST to the `play_status` URL whose body carries `status` 2 and `position`
equal to `progress`, returning the response's truthiness. -/
theorem update_progress_guard (L : UrlLayer) (e : Episode) (d : Int) (pid : JVal)
    (hdur : JObj.get e._data "duration" = .int d)
    (hpid : e.podcast_id = .ok pid) :
    (∀ progress : Int, d < progress →
        e.update_progress L progress =
          .error (.exception "Cannot update with progress longer than episode duration")) ∧
    (∀ progress : Int, progress ≤ d →
        e.update_progress L progress =
          .ok (e, [Effect.post (L.make_url e._api._api_base (L.get_endpoint "play_status"))
                     (JVal.obj [("uuid", e.id), ("podcast", pid), ("status", .int 2),
                                ("position", .int progress)])],
               e._api._post (L.make_url e._api._api_base (L.get_endpoint "play_status"))
                 (JVal.obj [("uuid", e.id), ("podcast", pid), ("status", .int 2),
                            ("position", .int progress)]))) := by
  constructor
  · intro progress hgt
    simp [Episode.update_progress, Episode.duration, hdur, pyIntGt, hgt]
  · intro progress hle
    simp [Episode.update_progress, Episode.duration, hdur, pyIntGt, hpid,
          Int.not_lt.mpr hle]

/-- Witness for C8 on `ep0` (duration 100): progress 200 raises, progress 50
POSTs status 2 / position 50. -/
theorem update_progress_guard_witness :
    ep0.update_progress L0 200 =
      .error (.exception "Cannot update with progress longer than episode duration") ∧
    ep0.update_progress L0 50 =
      .ok (ep0, [Effect.post (L0.make_url ep0._api._api_base (L0.get_endpoint "play_status"))
                   (JVal.obj [("uuid", ep0.id), ("podcast", .str "pod-1"), ("status", .int 2),
                              ("position", .int 50)])],
           ep0._api._post (L0.make_url ep0._api._api_base (L0.get_endpoint "play_status"))
             (JVal.obj [("uuid", ep0.id), ("podcast", .str "pod-1"), ("status", .int 2),
                        ("position", .int 50)])) :=
  ⟨(update_progress_guard L0 ep0 100 (.str "pod-1") rfl rfl).1 200 (by decide),
   (update_progress_guard L0 ep0 100 (.str "pod-1") rfl rfl).2 50 (by decide)⟩

/-- C9 (amended): for every payload whose `published` field is not (up to
ASCII case) the literal format string itself, `published_date` returns
`None`, and the `published` entry of the `play_next`/`play_last` queue
payloads is `None`. -/
theorem published_date_none_amended (L : UrlLayer) (e : Episode) (pid : JVal)
    (hpub : isFmtLiteral (JObj.get e._data "published") = false)
    (hpid : e.podcast_id = .ok pid) :
    e.published_date = none ∧
    (∃ u r, e.play_next L =
        .ok (e, [Effect.post u (JVal.obj [("version", .int 2),
              ("episode", .obj [("uuid", e.id), ("title", e.title), ("url", e.url),
                                ("podcast", pid), ("published", .null)])])], r)) ∧
    (∃ u r, e.play_last L =
        .ok (e, [Effect.post u (JVal.obj [("version", .int 2),
              ("episode", .obj [("uuid", e.id), ("title", e.title), ("url", e.url),
                                ("podcast", pid), ("published", .null)])])], r)) := by
  have hnone : e.published_date = none := by
    unfold Episode.published_date
    cases hv : JObj.get e._data "published" with
    | str s =>
        simp [isFmtLiteral, hv] at hpub
        simp [strptimeLiteralFmt, hpub]
    | null => simp [strptimeLiteralFmt]
    | bool b => simp [strptimeLiteralFmt]
    | int n => simp [strptimeLiteralFmt]
    | arr xs => simp [strptimeLiteralFmt]
    | obj fs => simp [strptimeLiteralFmt]
    | dt y mo dd h mi sec => simp [strptimeLiteralFmt]
  have h1 : e.play_next L =
      .ok (e, [Effect.post (L.make_url e._api._api_base (L.get_endpoint "play_next"))
            (JVal.obj [("version", .int 2),
              ("episode", .obj [("uuid", e.id), ("title", e.title), ("url", e.url),
                                ("podcast", pid), ("published", .null)])])],
           e._api._post (L.make_url e._api._api_base (L.get_endpoint "play_next"))
            (JVal.obj [("version", .int 2),
              ("episode", .obj [("uuid", e.id), ("title", e.title), ("url", e.url),
                                ("podcast", pid), ("published", .null)])])) := by
    simp [Episode.play_next, hpid, hnone, encodePublished]
  have h2 : e.play_last L =
      .ok (e, [Effect.post (L.make_url e._api._api_base (L.get_endpoint "play_last"))
            (JVal.obj [("version", .int 2),
              ("episode", .obj [("uuid", e.id), ("title", e.title), ("url", e.url),
                                ("podcast", pid), ("published", .null)])])],
           e._api._post (L.make_url e._api._api_base (L.get_endpoint "play_last"))
            (JVal.obj [("version", .int 2),
              ("episode", .obj [("uuid", e.id), ("title", e.title), ("url", e.url),
                                ("podcast", pid), ("published", .null)])])) := by
    simp [Episode.play_last, hpid, hnone, encodePublished]
  exact ⟨hnone, ⟨_, _, h1⟩, ⟨_, _, h2⟩⟩

/-- Witness for C9 (amended) on `epU`, whose payload has no `published`
field. -/
theorem published_date_none_amended_witness :
    epU.published_date = none ∧
    (∃ u r, epU.play_next L0 =
        .ok (epU, [Effect.post u (JVal.obj [("version", .int 2),
              ("episode", .obj [("uuid", epU.id), ("title", epU.title), ("url", epU.url),
                                ("podcast", .str "pod-1"), ("published", .null)])])], r)) ∧
    (∃ u r, epU.play_last L0 =
        .ok (epU, [Effect.post u (JVal.obj [("version", .int 2),
              ("episode", .obj [("uuid", epU.id), ("title", epU.title), ("url", epU.url),
                                ("podcast", .str "pod-1"), ("published", .null)])])], r)) :=
  published_date_none_amended L0 epU (.str "pod-1") rfl rfl

/-- C2: every mutating call (with `update_progress` under its precondition,
expressed as the source's guard `progress > self.duration` evaluating to
`False`) issues exactly one HTTP POST, and the URL it targets is composed by
`_make_url` from the API base and the `_get_endpoint` of a name fixed by the
method alone — the URL expression below depends only on the layer, the
method and the API base, never on the episode's payload. -/
theorem mutators_single_fixed_post (L : UrlLayer) (e : Episode) (pid : JVal)
    (hpid : e.podcast_id = .ok pid) :
    (∃ b r, e.mark_played L =
        .ok (e, [Effect.post (L.make_url e._api._api_base (L.get_endpoint "play_status")) b], r)) ∧
    (∃ b r, e.mark_unplayed L =
        .ok (e, [Effect.post (L.make_url e._api._api_base (L.get_endpoint "play_status")) b], r)) ∧
    (∀ progress, pyIntGt progress e.duration = .ok false →
        ∃ b r, e.update_progress L progress =
          .ok (e, [Effect.post (L.make_url e._api._api_base (L.get_endpoint "play_status")) b], r)) ∧
    (∃ b r, e.add_star L =
        .ok (e, [Effect.post (L.make_url e._api._api_base (L.get_endpoint "episode_star")) b], r)) ∧
    (∃ b r, e.remove_star L =
        .ok (e, [Effect.post (L.make_url e._api._api_base (L.get_endpoint "episode_star")) b], r)) ∧
    (∃ b r, e.archive L =
        .ok (e, [Effect.post (L.make_url e._api._api_base (L.get_endpoint "episode_archive")) b], r)) ∧
    (∃ b r, e.unarchive L =
        .ok (e, [Effect.post (L.make_url e._api._api_base (L.get_endpoint "episode_archive")) b], r)) ∧
    (∃ b r, e.play_next L =
        .ok (e, [Effect.post (L.make_url e._api._api_base (L.get_endpoint "play_next")) b], r)) ∧
    (∃ b r, e.play_last L =
        .ok (e, [Effect.post (L.make_url e._api._api_base (L.get_endpoint "play_last")) b], r)) := by
  exact ⟨⟨_, _, mark_played_eval L e pid hpid⟩,
         ⟨_, _, mark_unplayed_eval L e pid hpid⟩,
         fun progress hgt => ⟨_, _, update_progress_eval L e pid progress hpid hgt⟩,
         ⟨_, _, add_star_eval L e pid hpid⟩,
         ⟨_, _, remove_star_eval L e pid hpid⟩,
         ⟨_, _, archive_eval L e pid hpid⟩,
         ⟨_, _, unarchive_eval L e pid hpid⟩,
         ⟨_, _, play_next_eval L e pid hpid⟩,
         ⟨_, _, play_last_eval L e pid hpid⟩⟩

/-- Witness for C2 on `ep0` with the concrete layer `L0`, progress 50. -/
theorem mutators_single_fixed_post_witness :
    (∃ b r, ep0.mark_played L0 =
        .ok (ep0, [Effect.post (L0.make_url ep0._api._api_base (L0.get_endpoint "play_status")) b], r)) ∧
    (∃ b r, ep0.update_progress L0 50 =
        .ok (ep0, [Effect.post (L0.make_url ep0._api._api_base (L0.get_endpoint "play_status")) b], r)) ∧
    (∃ b r, ep0.play_last L0 =
        .ok (ep0, [Effect.post (L0.make_url ep0._api._api_base (L0.get_endpoint "play_last")) b], r)) :=
  ⟨(mutators_single_fixed_post L0 ep0 (.str "pod-1") rfl).1,
   (mutators_single_fixed_post L0 ep0 (.str "pod-1") rfl).2.2.1 50 rfl,
   (mutators_single_fixed_post L0 ep0 (.str "pod-1") rfl).2.2.2.2.2.2.2.2⟩

/-- C3 (amended): each mutating method other than `update_progress` raises
no exception and returns exactly the truthiness of its single POST's
response; `update_progress` behaves the same way when its guard
`progress > self.duration` evaluates to `False`, and raises (returning
nothing) when it evaluates to `True`. -/
theorem mutators_bool_result (L : UrlLayer) (e : Episode) (pid : JVal)
    (hpid : e.podcast_id = .ok pid) :
    (∃ u b, e.mark_played L = .ok (e, [Effect.post u b], e._api._post u b)) ∧
    (∃ u b, e.mark_unplayed L = .ok (e, [Effect.post u b], e._api._post u b)) ∧
    (∃ u b, e.add_star L = .ok (e, [Effect.post u b], e._api._post u b)) ∧
    (∃ u b, e.remove_star L = .ok (e, [Effect.post u b], e._api._post u b)) ∧
    (∃ u b, e.archive L = .ok (e, [Effect.post u b], e._api._post u b)) ∧
    (∃ u b, e.unarchive L = .ok (e, [Effect.post u b], e._api._post u b)) ∧
    (∃ u b, e.play_next L = .ok (e, [Effect.post u b], e._api._post u b)) ∧
    (∃ u b, e.play_last L = .ok (e, [Effect.post u b], e._api._post u b)) ∧
    (∀ progress, pyIntGt progress e.duration = .ok false →
        ∃ u b, e.update_progress L progress = .ok (e, [Effect.post u b], e._api._post u b)) ∧
    (∀ progress, pyIntGt progress e.duration = .ok true →
        e.update_progress L progress =
          .error (.exception "Cannot update with progress longer than episode duration")) := by
  exact ⟨⟨_, _, mark_played_eval L e pid hpid⟩,
         ⟨_, _, mark_unplayed_eval L e pid hpid⟩,
         ⟨_, _, add_star_eval L e pid hpid⟩,
         ⟨_, _, remove_star_eval L e pid hpid⟩,
         ⟨_, _, archive_eval L e pid hpid⟩,
         ⟨_, _, unarchive_eval L e pid hpid⟩,
         ⟨_, _, play_next_eval L e pid hpid⟩,
         ⟨_, _, play_last_eval L e pid hpid⟩,
         fun progress hgt => ⟨_, _, update_progress_eval L e pid progress hpid hgt⟩,
         fun progress hgt => by simp [Episode.update_progress, hgt]⟩

/-- Witness for C3 (amended) on `ep0`: `mark_played` returns the POST
outcome, and both branches of the `update_progress` guard. -/
theorem mutators_bool_result_witness :
    (∃ u b, ep0.mark_played L0 = .ok (ep0, [Effect.post u b], ep0._api._post u b)) ∧
    (∃ u b, ep0.update_progress L0 50 = .ok (ep0, [Effect.post u b], ep0._api._post u b)) ∧
    ep0.update_progress L0 200 =
      .error (.exception "Cannot update with progress longer than episode duration") :=
  ⟨(mutators_bool_result L0 ep0 (.str "pod-1") rfl).1,
   (mutators_bool_result L0 ep0 (.str "pod-1") rfl).2.2.2.2.2.2.2.2.1 50 rfl,
   (mutators_bool_result L0 ep0 (.str "pod-1") rfl).2.2.2.2.2.2.2.2.2 200 rfl⟩

/-- C4 counterexample: the accessors are not all verbatim field reads. On
`ep0`, `playing` turns the stored `playing_status` value `5` into the
boolean `True`, and `published_date` turns the stored `published` string
into `None`; neither returns the stored value itself. -/
theorem accessors_not_verbatim_cx :
    ep0.playing = .ok true ∧
    JObj.get ep0._data "playing_status" = .int 5 ∧
    ep0.published_date = none ∧
    JObj.get ep0._data "published" = .str "2021-01-01T00:00:00Z" :=
  ⟨rfl, rfl, rfl, rfl⟩

/-- C4 (amended): on any constructed episode, the thirteen plain accessors
return the corresponding payload field verbatim (Python `None` for a missing
field, with no validation and no transformation); the remaining two listed
accessors transform: `playing` returns the comparison `playing_status > 0`
(a `TypeError` when the field is not a number), and `published_date` returns
`None` for every `published` value other than the degenerate format
literal. -/
theorem accessors_verbatim_amended (data : JObj) (p : Podcast) (api : PocketCast)
    (e : Episode) (fx : List Effect)
    (hinit : Episode.init data (some p) api = .ok (e, fx)) :
    e.title = JObj.get data "title" ∧
    e.id = JObj.get data "uuid" ∧
    e.duration = JObj.get data "duration" ∧
    e.url = JObj.get data "url" ∧
    e.size = JObj.get data "size" ∧
    e.file_type = JObj.get data "fileType" ∧
    e.type = JObj.get data "episodeType" ∧
    e.season = JObj.get data "episodeSeason" ∧
    e.number = JObj.get data "episodeNumber" ∧
    e.current_position = JObj.get data "playedUpTo" ∧
    e.deleted = JObj.get data "isDeleted" ∧
    e.starred = JObj.get data "starred" ∧
    e.podcast_title = JObj.get data "podcastTitle" ∧
    (∀ n : Int, JObj.get data "playing_status" = .int n →
        e.playing = .ok (decide (n > 0))) ∧
    (isFmtLiteral (JObj.get data "published") = false → e.published_date = none) := by
  obtain ⟨he, -⟩ : e = { _data := data, _podcast := some p, _api := api } ∧ fx = [] := by
    simpa [Episode.init] using hinit.symm
  subst he
  refine ⟨rfl, rfl, rfl, rfl, rfl, rfl, rfl, rfl, rfl, rfl, rfl, rfl, rfl,
          fun n hn => ?_, fun hpub => ?_⟩
  · simp [Episode.playing, hn, pyGtInt]
  · unfold Episode.published_date
    cases hv : JObj.get data "published" with
    | str s =>
        simp [isFmtLiteral, hv] at hpub
        simp [strptimeLiteralFmt, hpub]
    | null => simp [strptimeLiteralFmt]
    | bool b => simp [strptimeLiteralFmt]
    | int n => simp [strptimeLiteralFmt]
    | arr xs => simp [strptimeLiteralFmt]
    | obj fs => simp [strptimeLiteralFmt]
    | dt y mo dd h mi sec => simp [strptimeLiteralFmt]

/-- Witness for C4 (amended) on `ep0`. -/
theorem accessors_verbatim_amended_witness :
    ep0.title = JObj.get data0 "title" ∧
    ep0.duration = JObj.get data0 "duration" ∧
    ep0.playing = .ok (decide ((5 : Int) > 0)) ∧
    ep0.published_date = none :=
  ⟨(accessors_verbatim_amended data0 pod0 api0 ep0 [] rfl).1,
   (accessors_verbatim_amended data0 pod0 api0 ep0 [] rfl).2.2.1,
   (accessors_verbatim_amended data0 pod0 api0 ep0 [] rfl).2.2.2.2.2.2.2.2.2.2.2.2.2.1 5 rfl,
   (accessors_verbatim_amended data0 pod0 api0 ep0 [] rfl).2.2.2.2.2.2.2.2.2.2.2.2.2.2 rfl⟩

/-- C7 counterexample: `show_notes` is a method that neither only reads a
field nor issues a POST: on `ep0` it prints the show-notes URL and issues an
HTTP GET, and neither of those effects is a POST. -/
theorem show_notes_get_print_cx :
    ep0.show_notes = .ok (ep0,
      [Effect.printed "https://podcast-api.pocketcasts.com/episode/show_notes/ep-1",
       Effect.getJson "https://podcast-api.pocketcasts.com/episode/show_notes/ep-1"],
      .str "some notes") ∧
    Effect.isPost (Effect.getJson "https://podcast-api.pocketcasts.com/episode/show_notes/ep-1")
      = false ∧
    Effect.isPost (Effect.printed "https://podcast-api.pocketcasts.com/episode/show_notes/ep-1")
      = false :=
  ⟨rfl, rfl, rfl⟩

/-- C7 (amended): every method either reads fields with no effect (the plain
accessors, which are pure functions of the state), or issues exactly one
HTTP POST of a built payload, or — the two exceptions — `show_notes`, which
prints the URL and issues exactly one GET, and the `podcast` property, which
performs at most one parent resolution through the API client. -/
theorem methods_effect_shape (L : UrlLayer) (e : Episode) (pid : JVal)
    (hpid : e.podcast_id = .ok pid) :
    (∃ u b v, e.share_link L = .ok (e, [Effect.post u b], v)) ∧
    (∃ u b r, e.mark_played L = .ok (e, [Effect.post u b], r)) ∧
    (∃ u b r, e.mark_unplayed L = .ok (e, [Effect.post u b], r)) ∧
    (∃ u b r, e.add_star L = .ok (e, [Effect.post u b], r)) ∧
    (∃ u b r, e.remove_star L = .ok (e, [Effect.post u b], r)) ∧
    (∃ u b r, e.archive L = .ok (e, [Effect.post u b], r)) ∧
    (∃ u b r, e.unarchive L = .ok (e, [Effect.post u b], r)) ∧
    (∃ u b r, e.play_next L = .ok (e, [Effect.post u b], r)) ∧
    (∃ u b r, e.play_last L = .ok (e, [Effect.post u b], r)) ∧
    (∀ progress, pyIntGt progress e.duration = .ok false →
        ∃ u b r, e.update_progress L progress = .ok (e, [Effect.post u b], r)) ∧
    (∃ u v, e.show_notes = .ok (e, [Effect.printed u, Effect.getJson u], v)) ∧
    (∀ e' fx p, e.podcast = .ok (e', fx, p) →
        fx = [] ∨ ∃ q, fx = [Effect.resolve q]) := by
  obtain ⟨v, hv⟩ := share_link_posts L e pid hpid
  refine ⟨⟨_, _, v, hv⟩,
          ⟨_, _, _, mark_played_eval L e pid hpid⟩,
          ⟨_, _, _, mark_unplayed_eval L e pid hpid⟩,
          ⟨_, _, _, add_star_eval L e pid hpid⟩,
          ⟨_, _, _, remove_star_eval L e pid hpid⟩,
          ⟨_, _, _, archive_eval L e pid hpid⟩,
          ⟨_, _, _, unarchive_eval L e pid hpid⟩,
          ⟨_, _, _, play_next_eval L e pid hpid⟩,
          ⟨_, _, _, play_last_eval L e pid hpid⟩,
          fun progress hgt => ⟨_, _, _, update_progress_eval L e pid progress hpid hgt⟩,
          ⟨_, _, show_notes_eval e⟩,
          fun e' fx p hp => ?_⟩
  cases hpc : e._podcast with
  | some q =>
      simp [Episode.podcast, hpc] at hp
      exact Or.inl hp.2.1
  | none =>
      simp [Episode.podcast, hpc, hpid] at hp
      exact Or.inr ⟨pid, hp.2.1.symm⟩

/-- Witness for C7 (amended) on `ep0`: `share_link` and `mark_played` each
produce a single POST, `show_notes` a print and a GET, and the `podcast`
property no effect at all (its parent is cached). -/
theorem methods_effect_shape_witness :
    (∃ u b v, ep0.share_link L0 = .ok (ep0, [Effect.post u b], v)) ∧
    (∃ u b r, ep0.mark_played L0 = .ok (ep0, [Effect.post u b], r)) ∧
    (∃ u v, ep0.show_notes = .ok (ep0, [Effect.printed u, Effect.getJson u], v)) ∧
    (([] : List Effect) = [] ∨ ∃ q, ([] : List Effect) = [Effect.resolve q]) :=
  ⟨(methods_effect_shape L0 ep0 (.str "pod-1") rfl).1,
   (methods_effect_shape L0 ep0 (.str "pod-1") rfl).2.1,
   (methods_effect_shape L0 ep0 (.str "pod-1") rfl).2.2.2.2.2.2.2.2.2.2.1,
   (methods_effect_shape L0 ep0 (.str "pod-1") rfl).2.2.2.2.2.2.2.2.2.2.2 ep0 [] pod0 rfl⟩

/-- C6: no operation of `Episode` modifies the stored payload `_data`: every
effectful method returns its state unchanged, and the `podcast` property
preserves `_data` and `_api` and changes `_podcast` only when it was unset
(lazy resolution); the plain accessors are pure functions of the state by
construction. -/
theorem episode_state_frame (L : UrlLayer) (e : Episode) (progress : Int) :
    (∀ e' fx v, e.share_link L = .ok (e', fx, v) → e' = e) ∧
    (∀ e' fx v, e.show_notes = .ok (e', fx, v) → e' = e) ∧
    (∀ e' fx r, e.update_progress L progress = .ok (e', fx, r) → e' = e) ∧
    (∀ e' fx r, e.mark_played L = .ok (e', fx, r) → e' = e) ∧
    (∀ e' fx r, e.mark_unplayed L = .ok (e', fx, r) → e' = e) ∧
    (∀ e' fx r, e.add_star L = .ok (e', fx, r) → e' = e) ∧
    (∀ e' fx r, e.remove_star L = .ok (e', fx, r) → e' = e) ∧
    (∀ e' fx r, e.archive L = .ok (e', fx, r) → e' = e) ∧
    (∀ e' fx r, e.unarchive L = .ok (e', fx, r) → e' = e) ∧
    (∀ e' fx r, e.play_next L = .ok (e', fx, r) → e' = e) ∧
    (∀ e' fx r, e.play_last L = .ok (e', fx, r) → e' = e) ∧
    (∀ e' fx p, e.podcast = .ok (e', fx, p) →
        e'._data = e._data ∧ e'._api = e._api ∧
        (e'._podcast = e._podcast ∨ e._podcast = none)) := by
  refine ⟨fun e' fx v h => ?_, fun e' fx v h => ?_, fun e' fx r h => ?_, fun e' fx r h => ?_,
          fun e' fx r h => ?_, fun e' fx r h => ?_, fun e' fx r h => ?_, fun e' fx r h => ?_,
          fun e' fx r h => ?_, fun e' fx r h => ?_, fun e' fx r h => ?_, fun e' fx p h => ?_⟩
  · cases hpid : e.podcast_id with
    | error ex => simp [Episode.share_link, hpid] at h
    | ok pid =>
        obtain ⟨v', hv⟩ := share_link_posts L e pid hpid
        rw [hv] at h
        simp at h
        exact h.1.symm
  · rw [show_notes_eval e] at h
    simp at h
    exact h.1.symm
  · cases hg : pyIntGt progress e.duration with
    | error ex => simp [Episode.update_progress, hg] at h
    | ok b =>
        cases b with
        | true => simp [Episode.update_progress, hg] at h
        | false =>
            cases hpid : e.podcast_id with
            | error ex => simp [Episode.update_progress, hg, hpid] at h
            | ok pid =>
                rw [update_progress_eval L e pid progress hpid hg] at h
                simp at h
                exact h.1.symm
  · cases hpid : e.podcast_id with
    | error ex => simp [Episode.mark_played, hpid] at h
    | ok pid =>
        rw [mark_played_eval L e pid hpid] at h
        simp at h
        exact h.1.symm
  · cases hpid : e.podcast_id with
    | error ex => simp [Episode.mark_unplayed, hpid] at h
    | ok pid =>
        rw [mark_unplayed_eval L e pid hpid] at h
        simp at h
        exact h.1.symm
  · cases hpid : e.podcast_id with
    | error ex => simp [Episode.add_star, hpid] at h
    | ok pid =>
        rw [add_star_eval L e pid hpid] at h
        simp at h
        exact h.1.symm
  · cases hpid : e.podcast_id with
    | error ex => simp [Episode.remove_star, hpid] at h
    | ok pid =>
        rw [remove_star_eval L e pid hpid] at h
        simp at h
        exact h.1.symm
  · cases hpid : e.podcast_id with
    | error ex => simp [Episode.archive, hpid] at h
    | ok pid =>
        rw [archive_eval L e pid hpid] at h
        simp at h
        exact h.1.symm
  · cases hpid : e.podcast_id with
    | error ex => simp [Episode.unarchive, hpid] at h
    | ok pid =>
        rw [unarchive_eval L e pid hpid] at h
        simp at h
        exact h.1.symm
  · cases hpid : e.podcast_id with
    | error ex => simp [Episode.play_next, hpid] at h
    | ok pid =>
        rw [play_next_eval L e pid hpid] at h
        simp at h
        exact h.1.symm
  · cases hpid : e.podcast_id with
    | error ex => simp [Episode.play_last, hpid] at h
    | ok pid =>
        rw [play_last_eval L e pid hpid] at h
        simp at h
        exact h.1.symm
  · cases hpc : e._podcast with
    | some q =>
        simp [Episode.podcast, hpc] at h
        exact ⟨by rw [← h.1], by rw [← h.1], Or.inl (by rw [← h.1]; exact hpc)⟩
    | none =>
        cases hpid : e.podcast_id with
        | error ex => simp [Episode.podcast, hpc, hpid] at h
        | ok pid =>
            simp [Episode.podcast, hpc, hpid] at h
            exact ⟨by rw [← h.1], by rw [← h.1], Or.inr rfl⟩

/-- Witness for C6: `mark_played` on `ep0` returns the state unchanged, and
resolving `epN`'s parent through the `podcast` property preserves `_data`
and `_api`, changing only the unset `_podcast`. -/
theorem episode_state_frame_witness :
    ((ep0 : Episode) = ep0) ∧
    (ep0._data = epN._data ∧ ep0._api = epN._api ∧
      (ep0._podcast = epN._podcast ∨ epN._podcast = none)) :=
  ⟨(episode_state_frame L0 ep0 50).2.2.2.1 ep0
      [Effect.post "https://api.pocketcasts.com/play_status"
        (JVal.obj [("uuid", .str "ep-1"), ("podcast", .str "pod-1"), ("status", .int 3)])]
      true rfl,
   (episode_state_frame L0 epN 50).2.2.2.2.2.2.2.2.2.2.2 ep0
      [Effect.resolve (.str "pod-1")] pod0 rfl⟩
